import Mathlib

/-!
Verification development for the wasmer runtime C API boundary
(src/lib/runtime-c-api/wasmer.hh).

The repository file is a pure interface header: it declares the C entry
points, their argument/result types and their documented result-code
discipline, but contains no function bodies.  The data model (result codes,
value tags, tagged values, limits, global descriptors) and the declaration
table are embedded directly from the header.  The behaviour of each entry
point (call dispatch, growth, global access, error channel) is modelled from
the specification, as noted on each definition.

Machine integers are modelled as Nat with explicit bounds where the header
fixes a width (uint32_t fields of wasmer_limits_t).  Fallible host
allocation is an explicit Bool oracle argument.  The thread-local error
channel is explicit state threaded through every fallible operation.
-/

/-- wasmer.hh lines 8-11: result code of every fallible entry point. -/
inductive wasmer_result_t where
  | WASMER_OK
  | WASMER_ERROR
deriving DecidableEq

/-- wasmer.hh lines 13-18: the four wasm value kinds. -/
inductive wasmer_value_tag where
  | WASM_I32
  | WASM_I64
  | WASM_F32
  | WASM_F64
deriving DecidableEq

/-- wasmer.hh lines 30-40: a tagged value crossing the host/guest boundary.
The union payload is modelled as its raw bits (a Nat), interpreted only per
the kind tag, as the spec data model requires. -/
structure wasmer_value_t where
  tag : wasmer_value_tag
  value : Nat
deriving DecidableEq

/-- wasmer.hh lines 42-45: type and mutability of a Global. -/
structure wasmer_global_descriptor_t where
  mutable_ : Bool
  kind : wasmer_value_tag
deriving DecidableEq

/-- wasmer.hh lines 51-54: creation limits; both fields are plain uint32_t,
so both are Nat values below 2 ^ 32 and a finite max is always present. -/
structure wasmer_limits_t where
  min : Nat
  max : Nat
  min_isUInt32 : min < 2 ^ 32
  max_isUInt32 : max < 2 ^ 32

/-- The thread-scoped last-error slot: at most one recorded message
(a byte list), read non-destructively. -/
abbrev ErrorChannel := Option (List Nat)

/-- Bytes of an error message text. -/
def strBytes (s : String) : List Nat := s.data.map Char.toNat

def unknownExportMsg : List Nat := strBytes "call error: function not found"

def signatureMismatchMsg : List Nat := strBytes "call error: parameter signature mismatch"

def runtimeTrapMsg : List Nat := strBytes "call error: runtime trap"

def kindMismatchMsg : List Nat := strBytes "global error: value kind mismatch"

def immutableGlobalMsg : List Nat := strBytes "global error: cannot set immutable global"

def memoryGrowLimitMsg : List Nat := strBytes "memory error: grow exceeds max limit"

def tableGrowLimitMsg : List Nat := strBytes "table error: grow exceeds max limit"

def hostAllocFailMsg : List Nat := strBytes "host error: allocation failed"

def invalidLimitsMsg : List Nat := strBytes "limits error: min exceeds max"

def decodeErrorMsg : List Nat := strBytes "instantiate error: invalid wasm bytes"

def linkErrorMsg : List Nat := strBytes "instantiate error: unresolved import"

def startTrapMsg : List Nat := strBytes "instantiate error: start function trapped"

/-- Modelled from the spec: a Global cell (section 4.5); the engine behind
wasmer_global_new is not in the repository files, only its declaration. -/
structure wasmer_global_t where
  desc : wasmer_global_descriptor_t
  value : wasmer_value_t
deriving DecidableEq

/-- Modelled from the spec: wasmer_global_new (wasmer.hh line 73) creates a
cell holding the initial value, whose kind is fixed at creation. -/
def wasmer_global_new (value : wasmer_value_t) (mutable_ : Bool) : wasmer_global_t :=
  { desc := { mutable_ := mutable_, kind := value.tag }, value := value }

/-- Modelled from the spec: wasmer_global_get (wasmer.hh line 66) always
succeeds and returns the current value. -/
def wasmer_global_get (global : wasmer_global_t) : wasmer_value_t :=
  global.value

/-- Modelled from the spec: wasmer_global_get_descriptor (wasmer.hh line 69). -/
def wasmer_global_get_descriptor (global : wasmer_global_t) : wasmer_global_descriptor_t :=
  global.desc

/-- Modelled from the spec: wasmer_global_set (wasmer.hh line 76).  Section
4.5: a set on an immutable Global, or with a value of the wrong kind, is
rejected deterministically; the chosen uniform policy is no-op plus an error
signal on the channel.  A successful set does not touch the channel. -/
def wasmer_global_set (global : wasmer_global_t) (value : wasmer_value_t)
    (err : ErrorChannel) : wasmer_global_t × ErrorChannel :=
  if global.desc.mutable_ then
    if value.tag = global.desc.kind then ({ global with value := value }, err)
    else (global, some kindMismatchMsg)
  else (global, some immutableGlobalMsg)

/-- Modelled from the spec: a Memory (section 3) is a page-granularity
growable buffer with creation limits; the engine is not in the repository
files, only the wasmer.hh declarations. -/
structure wasmer_memory_t where
  limits : wasmer_limits_t
  pages : Nat

/-- Modelled from the spec: a Table (section 3), element-granularity limits. -/
structure wasmer_table_t where
  limits : wasmer_limits_t
  length : Nat

/-- wasmer.hh line 166: current length in pages of a Memory. -/
def wasmer_memory_length (memory : wasmer_memory_t) : Nat :=
  memory.pages

/-- wasmer.hh line 186: current length in elements of a Table. -/
def wasmer_table_length (table : wasmer_table_t) : Nat :=
  table.length

/-- Modelled from the spec: wasmer_memory_grow (wasmer.hh line 163), section
4.4: new_size = current_size + delta; fails without mutating state when the
new size exceeds max or the host cannot allocate (the Bool oracle); a
failure overwrites the error channel, a success leaves it untouched. -/
def wasmer_memory_grow (memory : wasmer_memory_t) (delta : Nat)
    (hostAllocOk : Bool) (err : ErrorChannel) :
    wasmer_result_t × wasmer_memory_t × ErrorChannel :=
  if memory.limits.max < memory.pages + delta then
    (.WASMER_ERROR, memory, some memoryGrowLimitMsg)
  else if hostAllocOk then
    (.WASMER_OK, { memory with pages := memory.pages + delta }, err)
  else
    (.WASMER_ERROR, memory, some hostAllocFailMsg)

/-- Modelled from the spec: wasmer_table_grow (wasmer.hh line 183), same
growth contract as Memory at element granularity. -/
def wasmer_table_grow (table : wasmer_table_t) (delta : Nat)
    (hostAllocOk : Bool) (err : ErrorChannel) :
    wasmer_result_t × wasmer_table_t × ErrorChannel :=
  if table.limits.max < table.length + delta then
    (.WASMER_ERROR, table, some tableGrowLimitMsg)
  else if hostAllocOk then
    (.WASMER_OK, { table with length := table.length + delta }, err)
  else
    (.WASMER_ERROR, table, some hostAllocFailMsg)

/-- Modelled from the spec: wasmer_memory_new (wasmer.hh line 174) honours
the declared limits (current size starts at min, never above max) and
reports failure through the result code plus the channel. -/
def wasmer_memory_new (limits : wasmer_limits_t) (hostAllocOk : Bool)
    (err : ErrorChannel) :
    wasmer_result_t × Option wasmer_memory_t × ErrorChannel :=
  if limits.max < limits.min then
    (.WASMER_ERROR, none, some invalidLimitsMsg)
  else if hostAllocOk then
    (.WASMER_OK, some { limits := limits, pages := limits.min }, err)
  else
    (.WASMER_ERROR, none, some hostAllocFailMsg)

/-- Modelled from the spec: wasmer_table_new (wasmer.hh line 194). -/
def wasmer_table_new (limits : wasmer_limits_t) (hostAllocOk : Bool)
    (err : ErrorChannel) :
    wasmer_result_t × Option wasmer_table_t × ErrorChannel :=
  if limits.max < limits.min then
    (.WASMER_ERROR, none, some invalidLimitsMsg)
  else if hostAllocOk then
    (.WASMER_OK, some { limits := limits, length := limits.min }, err)
  else
    (.WASMER_ERROR, none, some hostAllocFailMsg)

/-- Modelled from the spec: an exported function of an Instance (section
4.2).  Guest execution is outside the repository files; wasm type safety
guarantees that a successful execution yields exactly the declared number of
raw result payloads (carried here in the length-indexed subtype), and a trap
is the none outcome. -/
structure ExportedFunc where
  params : List wasmer_value_tag
  returns : List wasmer_value_tag
  body : List Nat → Option { rs : List Nat // rs.length = returns.length }

/-- Modelled from the spec: an Instance (section 3) exposes its exported
functions by name; the engine behind wasmer_instantiate is not in the
repository files. -/
structure wasmer_instance_t where
  exports : List (String × ExportedFunc)

/-- Modelled from the spec: wasmer_instance_call (wasmer.hh lines 103-108),
section 4.2.  Lookup by name on every call; params length and kinds must
exactly match the declared parameter signature; failures (unknown export,
signature mismatch, runtime trap) report WASMER_ERROR, overwrite the error
channel and write zero results; a successful call writes exactly the
declared number of typed results and leaves the channel untouched. -/
def wasmer_instance_call (inst : wasmer_instance_t) (name : String)
    (params : List wasmer_value_t) (err : ErrorChannel) :
    wasmer_result_t × List wasmer_value_t × ErrorChannel :=
  match inst.exports.lookup name with
  | none => (.WASMER_ERROR, [], some unknownExportMsg)
  | some f =>
    if params.map wasmer_value_t.tag = f.params then
      match f.body (params.map wasmer_value_t.value) with
      | none => (.WASMER_ERROR, [], some runtimeTrapMsg)
      | some rs =>
        (.WASMER_OK, List.zipWith (fun t v => wasmer_value_t.mk t v) f.returns rs.1, err)
    else (.WASMER_ERROR, [], some signatureMismatchMsg)

/-- Modelled from the spec: one host import a module declares (section 4.1). -/
structure ImportDecl where
  namespace_ : String
  name : String
  params : List wasmer_value_tag
  returns : List wasmer_value_tag

/-- Modelled from the spec: one registered host function of an ImportObject
(section 4.3): (namespace, name) with its declared signature. -/
structure ImportFuncEntry where
  namespace_ : String
  name : String
  params : List wasmer_value_tag
  returns : List wasmer_value_tag

/-- Modelled from the spec: an ImportObject (wasmer.hh line 20) is a registry
of host-supplied functions. -/
structure wasmer_import_object_t where
  entries : List ImportFuncEntry

/-- wasmer.hh line 83: a fresh empty ImportObject. -/
def wasmer_import_object_new : wasmer_import_object_t :=
  { entries := [] }

/-- Modelled from the spec: a decoded Module as far as instantiation needs
it: declared imports, exported functions, and whether the start routine
traps. -/
structure wasm_module where
  imports : List ImportDecl
  exports : List (String × ExportedFunc)
  startTraps : Bool

/-- The 8-byte wasm binary preamble: magic plus version 1. -/
def wasm_preamble : List Nat := [0, 97, 115, 109, 1, 0, 0, 0]

/-- Modelled from the spec: the binary decoder is an external collaborator
(section 1, decode(bytes) -> Module | DecodeError) whose internals the spec
excludes; it is modelled as accepting exactly the minimal empty module, the
preamble with an empty body, and rejecting every other byte sequence. -/
def decode (wasm_bytes : List Nat) : Option wasm_module :=
  if wasm_bytes = wasm_preamble then
    some { imports := [], exports := [], startTraps := false }
  else none

/-- Modelled from the spec: wasmer_validate (wasmer.hh line 197), a total
structural check: true exactly when the bytes decode to a module, false for
every other input, never raising. -/
def wasmer_validate (wasm_bytes : List Nat) : Bool :=
  (decode wasm_bytes).isSome

/-- Modelled from the spec: link-time resolution of one declared import by
exact (namespace, name, signature) match (section 4.1). -/
def importResolved (entries : List ImportFuncEntry) (d : ImportDecl) : Bool :=
  entries.any fun e =>
    e.namespace_ == d.namespace_ && e.name == d.name &&
      e.params == d.params && e.returns == d.returns

/-- Modelled from the spec: wasmer_instantiate (wasmer.hh lines 122-125),
section 4.1: decode, resolve every import, allocate (the Bool oracle), run
the start routine; each failure reports WASMER_ERROR and overwrites the
channel, success leaves the channel untouched and hands the caller the
Instance. -/
def wasmer_instantiate (wasm_bytes : List Nat)
    (import_object : wasmer_import_object_t) (hostAllocOk : Bool)
    (err : ErrorChannel) :
    wasmer_result_t × Option wasmer_instance_t × ErrorChannel :=
  match decode wasm_bytes with
  | none => (.WASMER_ERROR, none, some decodeErrorMsg)
  | some m =>
    if m.imports.all (importResolved import_object.entries) then
      if hostAllocOk then
        if m.startTraps then (.WASMER_ERROR, none, some startTrapMsg)
        else (.WASMER_OK, some { exports := m.exports }, err)
      else (.WASMER_ERROR, none, some hostAllocFailMsg)
    else (.WASMER_ERROR, none, some linkErrorMsg)

/-- Modelled from the spec: wasmer_last_error_length (wasmer.hh line 135),
section 4.6: the byte length of the recorded message, or 0 if none. -/
def wasmer_last_error_length (err : ErrorChannel) : Int :=
  match err with
  | none => 0
  | some msg => (msg.length : Int)

/-- Modelled from the spec: wasmer_last_error_message (wasmer.hh line 148),
section 4.6: copies the message into the caller buffer (returned here as the
byte list written) and returns the number of bytes written, or -1 when the
capacity is insufficient or no error is recorded. -/
def wasmer_last_error_message (err : ErrorChannel) (length : Int) :
    Int × List Nat :=
  match err with
  | none => (-1, [])
  | some msg =>
    if length < (msg.length : Int) then (-1, [])
    else ((msg.length : Int), msg)

/-- The C return type of a header declaration, as written in wasmer.hh. -/
inductive CRetType where
  | void
  | bool_t
  | int_t
  | uint32_t
  | uint8_ptr
  | wasmer_result
  | wasmer_value
  | wasmer_global_descriptor
  | wasmer_global_ptr
  | wasmer_import_object_ptr
  | wasmer_memory_ptr
deriving DecidableEq

/-- One extern "C" declaration of wasmer.hh: its name, its declared return
type, and whether its doc comment documents a WASMER_OK / WASMER_ERROR
result code. -/
structure CFunDecl where
  name : String
  ret : CRetType
  docSaysResultCode : Bool
deriving DecidableEq

/-- The declaration table of wasmer.hh lines 60-199, transcribed verbatim:
declared return type and documented result-code discipline of every entry
point. -/
def header_decls : List CFunDecl :=
  [{ name := "wasmer_global_destroy", ret := .void, docSaysResultCode := false },
   { name := "wasmer_global_get", ret := .wasmer_value, docSaysResultCode := false },
   { name := "wasmer_global_get_descriptor", ret := .wasmer_global_descriptor,
     docSaysResultCode := false },
   { name := "wasmer_global_new", ret := .wasmer_global_ptr, docSaysResultCode := false },
   { name := "wasmer_global_set", ret := .void, docSaysResultCode := false },
   { name := "wasmer_import_object_destroy", ret := .void, docSaysResultCode := false },
   { name := "wasmer_import_object_new", ret := .wasmer_import_object_ptr,
     docSaysResultCode := false },
   { name := "wasmer_imports_set_import_func", ret := .void, docSaysResultCode := true },
   { name := "wasmer_instance_call", ret := .wasmer_result, docSaysResultCode := true },
   { name := "wasmer_instance_context_memory", ret := .wasmer_memory_ptr,
     docSaysResultCode := false },
   { name := "wasmer_instance_destroy", ret := .void, docSaysResultCode := false },
   { name := "wasmer_instantiate", ret := .wasmer_result, docSaysResultCode := true },
   { name := "wasmer_last_error_length", ret := .int_t, docSaysResultCode := false },
   { name := "wasmer_last_error_message", ret := .int_t, docSaysResultCode := false },
   { name := "wasmer_memory_data", ret := .uint8_ptr, docSaysResultCode := false },
   { name := "wasmer_memory_data_length", ret := .uint32_t, docSaysResultCode := false },
   { name := "wasmer_memory_destroy", ret := .void, docSaysResultCode := false },
   { name := "wasmer_memory_grow", ret := .wasmer_result, docSaysResultCode := true },
   { name := "wasmer_memory_length", ret := .uint32_t, docSaysResultCode := false },
   { name := "wasmer_memory_new", ret := .wasmer_result, docSaysResultCode := true },
   { name := "wasmer_table_destroy", ret := .void, docSaysResultCode := false },
   { name := "wasmer_table_grow", ret := .wasmer_result, docSaysResultCode := true },
   { name := "wasmer_table_length", ret := .uint32_t, docSaysResultCode := false },
   { name := "wasmer_table_new", ret := .wasmer_result, docSaysResultCode := true },
   { name := "wasmer_validate", ret := .bool_t, docSaysResultCode := false }]

/-- The declared C return type of a named wasmer.hh entry point. -/
def declared_ret (n : String) : Option CRetType :=
  (header_decls.find? fun d => d.name == n).map CFunDecl.ret

/-- Whether the wasmer.hh doc comment of a named entry point documents a
WASMER_OK / WASMER_ERROR result code. -/
def doc_says_result_code (n : String) : Option Bool :=
  (header_decls.find? fun d => d.name == n).map CFunDecl.docSaysResultCode

/-! ## Concrete objects used to exercise the operations -/

/-- An exported add function over two i32 parameters: raw payloads are added
modulo 2 ^ 32 and one i32 result is produced. -/
def addFunc : ExportedFunc where
  params := [.WASM_I32, .WASM_I32]
  returns := [.WASM_I32]
  body := fun args => some ⟨[(args.getD 0 0 + args.getD 1 0) % 2 ^ 32], rfl⟩

/-- An instance exporting the add function under the name "add". -/
def demoInstance : wasmer_instance_t :=
  { exports := [("add", addFunc)] }

/-- Limits min 1, max 2 (the end-to-end scenario of the spec). -/
def demoLimits : wasmer_limits_t :=
  { min := 1, max := 2, min_isUInt32 := by decide, max_isUInt32 := by decide }

def demoMemory : wasmer_memory_t :=
  { limits := demoLimits, pages := 1 }

def demoTable : wasmer_table_t :=
  { limits := demoLimits, length := 1 }

def demoGlobal : wasmer_global_t :=
  wasmer_global_new { tag := .WASM_I32, value := 7 } true

def demoImmutableGlobal : wasmer_global_t :=
  wasmer_global_new { tag := .WASM_I32, value := 7 } false

def demoParams : List wasmer_value_t :=
  [{ tag := .WASM_I32, value := 2 }, { tag := .WASM_I32, value := 3 }]

/-! ## Helper lemmas -/

/-- Unfolding wasmer_instance_call at an unknown export name. -/
lemma instance_call_of_lookup_none (inst : wasmer_instance_t) (name : String)
    (params : List wasmer_value_t) (err : ErrorChannel)
    (h : inst.exports.lookup name = none) :
    wasmer_instance_call inst name params err =
      (.WASMER_ERROR, [], some unknownExportMsg) := by
  unfold wasmer_instance_call
  rw [h]

/-- Unfolding wasmer_instance_call at an export found by name. -/
lemma instance_call_of_lookup_some (inst : wasmer_instance_t) (name : String)
    (params : List wasmer_value_t) (err : ErrorChannel) (f : ExportedFunc)
    (h : inst.exports.lookup name = some f) :
    wasmer_instance_call inst name params err =
      (if params.map wasmer_value_t.tag = f.params then
        match f.body (params.map wasmer_value_t.value) with
        | none => (.WASMER_ERROR, [], some runtimeTrapMsg)
        | some rs =>
          (.WASMER_OK, List.zipWith (fun t v => wasmer_value_t.mk t v) f.returns rs.1, err)
      else (.WASMER_ERROR, [], some signatureMismatchMsg)) := by
  unfold wasmer_instance_call
  rw [h]

/-- Mapping the tag projection over a zip of tags with payloads recovers the
tags, as long as there are enough payloads. -/
lemma map_tag_zipWith_mk (ts : List wasmer_value_tag) :
    ∀ vs : List Nat, ts.length ≤ vs.length →
      (List.zipWith (fun t v => wasmer_value_t.mk t v) ts vs).map wasmer_value_t.tag = ts := by
  induction ts with
  | nil => intro vs _; simp
  | cons t ts ih =>
    intro vs h
    cases vs with
    | nil => simp at h
    | cons v vs =>
      simp only [List.zipWith_cons_cons, List.map_cons]
      exact congrArg (fun l => t :: l) (ih vs (by simpa using h))

/-- One grow step never shrinks a Memory, whether it succeeds or fails. -/
lemma memory_grow_pages_le (memory : wasmer_memory_t) (delta : Nat)
    (hostAllocOk : Bool) (err : ErrorChannel) :
    memory.pages ≤ ((wasmer_memory_grow memory delta hostAllocOk err).2.1).pages := by
  unfold wasmer_memory_grow
  split_ifs <;> simp

/-- One grow step never shrinks a Table, whether it succeeds or fails. -/
lemma table_grow_length_le (table : wasmer_table_t) (delta : Nat)
    (hostAllocOk : Bool) (err : ErrorChannel) :
    table.length ≤ ((wasmer_table_grow table delta hostAllocOk err).2.1).length := by
  unfold wasmer_table_grow
  split_ifs <;> simp

/-- A sequence of grow attempts on a Memory, each with its own delta and
host-allocation outcome, keeping whatever state each attempt leaves. -/
def growList (memory : wasmer_memory_t) (steps : List (Nat × Bool)) : wasmer_memory_t :=
  steps.foldl (fun st s => (wasmer_memory_grow st s.1 s.2 none).2.1) memory

/-- A sequence of grow attempts on a Table. -/
def growListTable (table : wasmer_table_t) (steps : List (Nat × Bool)) : wasmer_table_t :=
  steps.foldl (fun st s => (wasmer_table_grow st s.1 s.2 none).2.1) table

/-- Page count is monotone along any sequence of Memory grow attempts. -/
lemma growList_mono (steps : List (Nat × Bool)) :
    ∀ memory : wasmer_memory_t, memory.pages ≤ (growList memory steps).pages := by
  induction steps with
  | nil => intro m; exact le_rfl
  | cons s steps ih =>
    intro m
    exact le_trans (memory_grow_pages_le m s.1 s.2 none)
      (ih ((wasmer_memory_grow m s.1 s.2 none).2.1))

/-- Element count is monotone along any sequence of Table grow attempts. -/
lemma growListTable_mono (steps : List (Nat × Bool)) :
    ∀ table : wasmer_table_t, table.length ≤ (growListTable table steps).length := by
  induction steps with
  | nil => intro t; exact le_rfl
  | cons s steps ih =>
    intro t
    exact le_trans (table_grow_length_le t s.1 s.2 none)
      (ih ((wasmer_table_grow t s.1 s.2 none).2.1))

/-- Unfolding wasmer_instantiate on bytes that do not decode. -/
lemma instantiate_of_decode_none (wasm_bytes : List Nat)
    (import_object : wasmer_import_object_t) (hostAllocOk : Bool)
    (err : ErrorChannel) (h : decode wasm_bytes = none) :
    wasmer_instantiate wasm_bytes import_object hostAllocOk err =
      (.WASMER_ERROR, none, some decodeErrorMsg) := by
  unfold wasmer_instantiate
  rw [h]

/-- Unfolding wasmer_instantiate on bytes that decode to a module. -/
lemma instantiate_of_decode_some (wasm_bytes : List Nat)
    (import_object : wasmer_import_object_t) (hostAllocOk : Bool)
    (err : ErrorChannel) (m : wasm_module) (h : decode wasm_bytes = some m) :
    wasmer_instantiate wasm_bytes import_object hostAllocOk err =
      (if m.imports.all (importResolved import_object.entries) then
        if hostAllocOk then
          if m.startTraps then (.WASMER_ERROR, none, some startTrapMsg)
          else (.WASMER_OK, some { exports := m.exports }, err)
        else (.WASMER_ERROR, none, some hostAllocFailMsg)
      else (.WASMER_ERROR, none, some linkErrorMsg)) := by
  unfold wasmer_instantiate
  rw [h]

/-! ## Claim theorems -/

/-- C1: a wasmer_instance_call that returns WASMER_OK writes exactly the
declared number of typed results of the called export into the results
buffer: the written list has the declared return arity and its kind tags are
exactly the declared return kinds. -/
theorem instance_call_writes_declared_results (inst : wasmer_instance_t)
    (name : String) (params : List wasmer_value_t) (err : ErrorChannel)
    (f : ExportedFunc) (hf : inst.exports.lookup name = some f)
    (hok : (wasmer_instance_call inst name params err).1 = wasmer_result_t.WASMER_OK) :
    (wasmer_instance_call inst name params err).2.1.length = f.returns.length ∧
    (wasmer_instance_call inst name params err).2.1.map wasmer_value_t.tag = f.returns := by
  rw [instance_call_of_lookup_some inst name params err f hf] at hok ⊢
  by_cases hp : params.map wasmer_value_t.tag = f.params
  · rw [if_pos hp] at hok ⊢
    cases hb : f.body (params.map wasmer_value_t.value) with
    | none => rw [hb] at hok; simp at hok
    | some rs =>
      constructor
      · simp [List.length_zipWith, rs.2]
      · simpa using map_tag_zipWith_mk f.returns rs.1 (le_of_eq rs.2.symm)
  · rw [if_neg hp] at hok
    simp at hok

/-- C1 witness: calling the add export with two i32 arguments writes exactly
the one declared i32 result. -/
theorem instance_call_writes_declared_results_witness :
    (wasmer_instance_call demoInstance "add" demoParams none).2.1.length =
      addFunc.returns.length ∧
    (wasmer_instance_call demoInstance "add" demoParams none).2.1.map
      wasmer_value_t.tag = addFunc.returns :=
  instance_call_writes_declared_results demoInstance "add" demoParams none addFunc
    rfl rfl

/-- C2: a call whose export name does not exist, or whose parameter kind
sequence (or length) differs from the declared parameter signature, returns
WASMER_ERROR, records an error on the channel and writes zero results. -/
theorem instance_call_mismatch_rejected (inst : wasmer_instance_t)
    (name : String) (params : List wasmer_value_t) (err : ErrorChannel)
    (hbad : inst.exports.lookup name = none ∨
      ∃ f, inst.exports.lookup name = some f ∧
        params.map wasmer_value_t.tag ≠ f.params) :
    (wasmer_instance_call inst name params err).1 = wasmer_result_t.WASMER_ERROR ∧
    (wasmer_instance_call inst name params err).2.1 = [] ∧
    ((wasmer_instance_call inst name params err).2.2).isSome = true := by
  rcases hbad with h | ⟨f, hf, hp⟩
  · rw [instance_call_of_lookup_none inst name params err h]
    exact ⟨rfl, rfl, rfl⟩
  · rw [instance_call_of_lookup_some inst name params err f hf, if_neg hp]
    exact ⟨rfl, rfl, rfl⟩

/-- C2 witness: calling an export name that does not exist fails with a
recorded error and zero written results. -/
theorem instance_call_mismatch_rejected_witness :
    (wasmer_instance_call demoInstance "sub" demoParams none).1 =
      wasmer_result_t.WASMER_ERROR ∧
    (wasmer_instance_call demoInstance "sub" demoParams none).2.1 = [] ∧
    ((wasmer_instance_call demoInstance "sub" demoParams none).2.2).isSome = true :=
  instance_call_mismatch_rejected demoInstance "sub" demoParams none (Or.inl rfl)

/-- C3: a successful grow of a Memory or Table sets the new size to
current_size + delta, and over any sequence of grow attempts the size
reported by wasmer_memory_length / wasmer_table_length never decreases. -/
theorem grow_monotone (memory : wasmer_memory_t) (table : wasmer_table_t)
    (delta : Nat) (hostAllocOk : Bool) (err : ErrorChannel)
    (steps : List (Nat × Bool)) :
    ((wasmer_memory_grow memory delta hostAllocOk err).1 = wasmer_result_t.WASMER_OK →
      wasmer_memory_length (wasmer_memory_grow memory delta hostAllocOk err).2.1 =
        wasmer_memory_length memory + delta) ∧
    ((wasmer_table_grow table delta hostAllocOk err).1 = wasmer_result_t.WASMER_OK →
      wasmer_table_length (wasmer_table_grow table delta hostAllocOk err).2.1 =
        wasmer_table_length table + delta) ∧
    wasmer_memory_length memory ≤ wasmer_memory_length (growList memory steps) ∧
    wasmer_table_length table ≤ wasmer_table_length (growListTable table steps) := by
  refine ⟨?_, ?_, growList_mono steps memory, growListTable_mono steps table⟩
  · intro hok
    unfold wasmer_memory_length
    unfold wasmer_memory_grow at hok ⊢
    split_ifs at hok ⊢
    all_goals simp_all
  · intro hok
    unfold wasmer_table_length
    unfold wasmer_table_grow at hok ⊢
    split_ifs at hok ⊢
    all_goals simp_all

/-- C3 witness: growing the demo Memory and Table by one page / one element
succeeds and adds exactly one to the reported size. -/
theorem grow_monotone_witness :
    wasmer_memory_length (wasmer_memory_grow demoMemory 1 true none).2.1 =
      wasmer_memory_length demoMemory + 1 ∧
    wasmer_table_length (wasmer_table_grow demoTable 1 true none).2.1 =
      wasmer_table_length demoTable + 1 := by
  have h := grow_monotone demoMemory demoTable 1 true none [(1, true)]
  exact ⟨h.1 rfl, h.2.1 rfl⟩

/-- C4: a grow whose new size current_size + delta would exceed max returns
WASMER_ERROR and leaves the observable size unchanged, for Memory and Table
alike. -/
theorem grow_beyond_max_fails (memory : wasmer_memory_t) (table : wasmer_table_t)
    (delta : Nat) (hostAllocOk : Bool) (err : ErrorChannel) :
    (memory.limits.max < wasmer_memory_length memory + delta →
      (wasmer_memory_grow memory delta hostAllocOk err).1 = wasmer_result_t.WASMER_ERROR ∧
      wasmer_memory_length (wasmer_memory_grow memory delta hostAllocOk err).2.1 =
        wasmer_memory_length memory) ∧
    (table.limits.max < wasmer_table_length table + delta →
      (wasmer_table_grow table delta hostAllocOk err).1 = wasmer_result_t.WASMER_ERROR ∧
      wasmer_table_length (wasmer_table_grow table delta hostAllocOk err).2.1 =
        wasmer_table_length table) := by
  constructor
  · intro h
    unfold wasmer_memory_length at h ⊢
    unfold wasmer_memory_grow
    rw [if_pos h]
    exact ⟨rfl, rfl⟩
  · intro h
    unfold wasmer_table_length at h ⊢
    unfold wasmer_table_grow
    rw [if_pos h]
    exact ⟨rfl, rfl⟩

/-- C4 witness: growing the demo Memory and Table (size 1, max 2) by 5 fails
and leaves the reported size at 1. -/
theorem grow_beyond_max_fails_witness :
    ((wasmer_memory_grow demoMemory 5 true none).1 = wasmer_result_t.WASMER_ERROR ∧
      wasmer_memory_length (wasmer_memory_grow demoMemory 5 true none).2.1 =
        wasmer_memory_length demoMemory) ∧
    ((wasmer_table_grow demoTable 5 true none).1 = wasmer_result_t.WASMER_ERROR ∧
      wasmer_table_length (wasmer_table_grow demoTable 5 true none).2.1 =
        wasmer_table_length demoTable) :=
  ⟨(grow_beyond_max_fails demoMemory demoTable 5 true none).1 (by decide),
   (grow_beyond_max_fails demoMemory demoTable 5 true none).2 (by decide)⟩

/-- C5: on a mutable Global, set followed by get returns the value set, for
any value of the declared kind; on an immutable Global, set never changes
the value observable via get. -/
theorem global_set_get_roundtrip (global : wasmer_global_t)
    (value : wasmer_value_t) (err : ErrorChannel) :
    (global.desc.mutable_ = true → value.tag = global.desc.kind →
      wasmer_global_get (wasmer_global_set global value err).1 = value) ∧
    (global.desc.mutable_ = false →
      wasmer_global_get (wasmer_global_set global value err).1 =
        wasmer_global_get global) := by
  constructor
  · intro hm hk
    simp [wasmer_global_set, wasmer_global_get, hm, hk]
  · intro hm
    simp [wasmer_global_set, wasmer_global_get, hm]

/-- C5 witness: setting 9 on the mutable demo Global reads back 9; setting 9
on the immutable demo Global leaves the read value unchanged. -/
theorem global_set_get_roundtrip_witness :
    wasmer_global_get
      (wasmer_global_set demoGlobal { tag := .WASM_I32, value := 9 } none).1 =
      { tag := .WASM_I32, value := 9 } ∧
    wasmer_global_get
      (wasmer_global_set demoImmutableGlobal { tag := .WASM_I32, value := 9 } none).1 =
      wasmer_global_get demoImmutableGlobal :=
  ⟨(global_set_get_roundtrip demoGlobal { tag := .WASM_I32, value := 9 } none).1 rfl rfl,
   (global_set_get_roundtrip demoImmutableGlobal { tag := .WASM_I32, value := 9 } none).2 rfl⟩

/-- C6: wasmer_validate is a total Boolean check on every byte sequence: it
yields true for every input that decodes to a module and false for every
input that does not, never raising. -/
theorem validate_total (wasm_bytes : List Nat) :
    ((∃ m, decode wasm_bytes = some m) → wasmer_validate wasm_bytes = true) ∧
    (decode wasm_bytes = none → wasmer_validate wasm_bytes = false) := by
  constructor
  · rintro ⟨m, hm⟩
    unfold wasmer_validate
    rw [hm]
    rfl
  · intro h
    unfold wasmer_validate
    rw [h]
    rfl

/-- C6 witness: the preamble of the empty module validates, two junk bytes
do not. -/
theorem validate_total_witness :
    wasmer_validate wasm_preamble = true ∧ wasmer_validate [0, 0] = false :=
  ⟨(validate_total wasm_preamble).1 ⟨_, rfl⟩, (validate_total [0, 0]).2 rfl⟩

/-- C7: wasmer_last_error_length returns the byte length of the recorded
message, or 0 when none is recorded; wasmer_last_error_message writes the
message and returns the number of bytes written when the capacity suffices,
and returns -1 when the capacity is insufficient or nothing is recorded. -/
theorem last_error_reporting (err : ErrorChannel) (msg : List Nat) (cap : Int) :
    (err = none → wasmer_last_error_length err = 0) ∧
    (err = some msg → wasmer_last_error_length err = (msg.length : Int)) ∧
    (err = none → (wasmer_last_error_message err cap).1 = -1) ∧
    (err = some msg → (msg.length : Int) ≤ cap →
      wasmer_last_error_message err cap = ((msg.length : Int), msg)) ∧
    (err = some msg → cap < (msg.length : Int) →
      (wasmer_last_error_message err cap).1 = -1) := by
  refine ⟨?_, ?_, ?_, ?_, ?_⟩
  · intro h; rw [h]; rfl
  · intro h; rw [h]; rfl
  · intro h; rw [h]; rfl
  · intro h hc
    subst h
    simp only [wasmer_last_error_message]
    rw [if_neg (not_lt.mpr hc)]
  · intro h hc
    subst h
    simp only [wasmer_last_error_message]
    rw [if_pos hc]

/-- C7 witness: the length and message queries behave as stated on an empty
channel and on a recorded message, with a large and a too-small capacity. -/
theorem last_error_reporting_witness :
    wasmer_last_error_length (none : ErrorChannel) = 0 ∧
    wasmer_last_error_length (some unknownExportMsg) = (unknownExportMsg.length : Int) ∧
    (wasmer_last_error_message (none : ErrorChannel) 64).1 = -1 ∧
    wasmer_last_error_message (some unknownExportMsg) 64 =
      ((unknownExportMsg.length : Int), unknownExportMsg) ∧
    (wasmer_last_error_message (some unknownExportMsg) 4).1 = -1 :=
  ⟨(last_error_reporting none unknownExportMsg 64).1 rfl,
   (last_error_reporting (some unknownExportMsg) unknownExportMsg 64).2.1 rfl,
   (last_error_reporting none unknownExportMsg 64).2.2.1 rfl,
   (last_error_reporting (some unknownExportMsg) unknownExportMsg 64).2.2.2.1 rfl
     (by decide),
   (last_error_reporting (some unknownExportMsg) unknownExportMsg 4).2.2.2.2 rfl
     (by decide)⟩

/-- Channel discipline of wasmer_instantiate: untouched on success,
overwritten independently of its previous content on failure. -/
lemma instantiate_channel_frame (wasm_bytes : List Nat)
    (import_object : wasmer_import_object_t) (hostAllocOk : Bool)
    (err err' : ErrorChannel) :
    ((wasmer_instantiate wasm_bytes import_object hostAllocOk err).1 =
        wasmer_result_t.WASMER_OK →
      (wasmer_instantiate wasm_bytes import_object hostAllocOk err).2.2 = err) ∧
    ((wasmer_instantiate wasm_bytes import_object hostAllocOk err).1 =
        wasmer_result_t.WASMER_ERROR →
      ((wasmer_instantiate wasm_bytes import_object hostAllocOk err).2.2).isSome = true ∧
      (wasmer_instantiate wasm_bytes import_object hostAllocOk err).2.2 =
        (wasmer_instantiate wasm_bytes import_object hostAllocOk err').2.2) := by
  cases hb : decode wasm_bytes with
  | none =>
    rw [instantiate_of_decode_none wasm_bytes import_object hostAllocOk err hb,
      instantiate_of_decode_none wasm_bytes import_object hostAllocOk err' hb]
    constructor
    · intro h; simp at h
    · intro _; exact ⟨rfl, rfl⟩
  | some m =>
    rw [instantiate_of_decode_some wasm_bytes import_object hostAllocOk err m hb,
      instantiate_of_decode_some wasm_bytes import_object hostAllocOk err' m hb]
    split_ifs
    · constructor
      · intro h; simp at h
      · intro _; exact ⟨rfl, rfl⟩
    · constructor
      · intro _; rfl
      · intro h; simp at h
    · constructor
      · intro h; simp at h
      · intro _; exact ⟨rfl, rfl⟩
    · constructor
      · intro h; simp at h
      · intro _; exact ⟨rfl, rfl⟩

/-- Channel discipline of wasmer_instance_call. -/
lemma call_channel_frame (inst : wasmer_instance_t) (name : String)
    (params : List wasmer_value_t) (err err' : ErrorChannel) :
    ((wasmer_instance_call inst name params err).1 = wasmer_result_t.WASMER_OK →
      (wasmer_instance_call inst name params err).2.2 = err) ∧
    ((wasmer_instance_call inst name params err).1 = wasmer_result_t.WASMER_ERROR →
      ((wasmer_instance_call inst name params err).2.2).isSome = true ∧
      (wasmer_instance_call inst name params err).2.2 =
        (wasmer_instance_call inst name params err').2.2) := by
  cases hl : inst.exports.lookup name with
  | none =>
    rw [instance_call_of_lookup_none inst name params err hl,
      instance_call_of_lookup_none inst name params err' hl]
    constructor
    · intro h; simp at h
    · intro _; exact ⟨rfl, rfl⟩
  | some f =>
    rw [instance_call_of_lookup_some inst name params err f hl,
      instance_call_of_lookup_some inst name params err' f hl]
    by_cases hp : params.map wasmer_value_t.tag = f.params
    · rw [if_pos hp, if_pos hp]
      cases hbody : f.body (params.map wasmer_value_t.value) with
      | none =>
        constructor
        · intro h; simp at h
        · intro _; exact ⟨rfl, rfl⟩
      | some rs =>
        constructor
        · intro _; rfl
        · intro h; simp at h
    · rw [if_neg hp, if_neg hp]
      constructor
      · intro h; simp at h
      · intro _; exact ⟨rfl, rfl⟩

/-- Channel discipline of wasmer_memory_grow. -/
lemma memory_grow_channel_frame (memory : wasmer_memory_t) (delta : Nat)
    (hostAllocOk : Bool) (err err' : ErrorChannel) :
    ((wasmer_memory_grow memory delta hostAllocOk err).1 = wasmer_result_t.WASMER_OK →
      (wasmer_memory_grow memory delta hostAllocOk err).2.2 = err) ∧
    ((wasmer_memory_grow memory delta hostAllocOk err).1 = wasmer_result_t.WASMER_ERROR →
      ((wasmer_memory_grow memory delta hostAllocOk err).2.2).isSome = true ∧
      (wasmer_memory_grow memory delta hostAllocOk err).2.2 =
        (wasmer_memory_grow memory delta hostAllocOk err').2.2) := by
  unfold wasmer_memory_grow
  split_ifs
  · exact ⟨fun h => by simp at h, fun _ => ⟨rfl, rfl⟩⟩
  · exact ⟨fun _ => rfl, fun h => by simp at h⟩
  · exact ⟨fun h => by simp at h, fun _ => ⟨rfl, rfl⟩⟩

/-- Channel discipline of wasmer_table_grow. -/
lemma table_grow_channel_frame (table : wasmer_table_t) (delta : Nat)
    (hostAllocOk : Bool) (err err' : ErrorChannel) :
    ((wasmer_table_grow table delta hostAllocOk err).1 = wasmer_result_t.WASMER_OK →
      (wasmer_table_grow table delta hostAllocOk err).2.2 = err) ∧
    ((wasmer_table_grow table delta hostAllocOk err).1 = wasmer_result_t.WASMER_ERROR →
      ((wasmer_table_grow table delta hostAllocOk err).2.2).isSome = true ∧
      (wasmer_table_grow table delta hostAllocOk err).2.2 =
        (wasmer_table_grow table delta hostAllocOk err').2.2) := by
  unfold wasmer_table_grow
  split_ifs
  · exact ⟨fun h => by simp at h, fun _ => ⟨rfl, rfl⟩⟩
  · exact ⟨fun _ => rfl, fun h => by simp at h⟩
  · exact ⟨fun h => by simp at h, fun _ => ⟨rfl, rfl⟩⟩

/-- Channel discipline of wasmer_memory_new. -/
lemma memory_new_channel_frame (limits : wasmer_limits_t) (hostAllocOk : Bool)
    (err err' : ErrorChannel) :
    ((wasmer_memory_new limits hostAllocOk err).1 = wasmer_result_t.WASMER_OK →
      (wasmer_memory_new limits hostAllocOk err).2.2 = err) ∧
    ((wasmer_memory_new limits hostAllocOk err).1 = wasmer_result_t.WASMER_ERROR →
      ((wasmer_memory_new limits hostAllocOk err).2.2).isSome = true ∧
      (wasmer_memory_new limits hostAllocOk err).2.2 =
        (wasmer_memory_new limits hostAllocOk err').2.2) := by
  unfold wasmer_memory_new
  split_ifs
  · exact ⟨fun h => by simp at h, fun _ => ⟨rfl, rfl⟩⟩
  · exact ⟨fun _ => rfl, fun h => by simp at h⟩
  · exact ⟨fun h => by simp at h, fun _ => ⟨rfl, rfl⟩⟩

/-- Channel discipline of wasmer_table_new. -/
lemma table_new_channel_frame (limits : wasmer_limits_t) (hostAllocOk : Bool)
    (err err' : ErrorChannel) :
    ((wasmer_table_new limits hostAllocOk err).1 = wasmer_result_t.WASMER_OK →
      (wasmer_table_new limits hostAllocOk err).2.2 = err) ∧
    ((wasmer_table_new limits hostAllocOk err).1 = wasmer_result_t.WASMER_ERROR →
      ((wasmer_table_new limits hostAllocOk err).2.2).isSome = true ∧
      (wasmer_table_new limits hostAllocOk err).2.2 =
        (wasmer_table_new limits hostAllocOk err').2.2) := by
  unfold wasmer_table_new
  split_ifs
  · exact ⟨fun h => by simp at h, fun _ => ⟨rfl, rfl⟩⟩
  · exact ⟨fun _ => rfl, fun h => by simp at h⟩
  · exact ⟨fun h => by simp at h, fun _ => ⟨rfl, rfl⟩⟩

/-- Channel discipline of wasmer_global_set: a rejected set (immutable cell
or kind mismatch) overwrites the channel independently of its previous
content, an accepted set leaves it untouched. -/
lemma global_set_channel_frame (global : wasmer_global_t)
    (value : wasmer_value_t) (err err' : ErrorChannel) :
    ((global.desc.mutable_ = true ∧ value.tag = global.desc.kind) →
      (wasmer_global_set global value err).2 = err) ∧
    (¬(global.desc.mutable_ = true ∧ value.tag = global.desc.kind) →
      ((wasmer_global_set global value err).2).isSome = true ∧
      (wasmer_global_set global value err).2 =
        (wasmer_global_set global value err').2) := by
  unfold wasmer_global_set
  split_ifs with hm hk
  · constructor
    · intro _; rfl
    · intro hbad; exact absurd ⟨hm, hk⟩ hbad
  · constructor
    · rintro ⟨-, hk2⟩; exact absurd hk2 hk
    · intro _; exact ⟨rfl, rfl⟩
  · constructor
    · rintro ⟨hm2, -⟩; exact absurd hm2 hm
    · intro _; exact ⟨rfl, rfl⟩

/-- C8: every fallible operation (instantiate, call, memory/table grow,
memory/table creation, global set) overwrites the error channel on failure
with the new error — the written content does not depend on what the channel
held before, so nothing is appended — and leaves the channel exactly as it
was on success. -/
theorem error_channel_write_discipline (wasm_bytes : List Nat)
    (import_object : wasmer_import_object_t) (inst : wasmer_instance_t)
    (name : String) (params : List wasmer_value_t) (memory : wasmer_memory_t)
    (table : wasmer_table_t) (delta : Nat) (limits : wasmer_limits_t)
    (global : wasmer_global_t) (value : wasmer_value_t) (hostAllocOk : Bool)
    (err err' : ErrorChannel) :
    (((wasmer_instantiate wasm_bytes import_object hostAllocOk err).1 =
        wasmer_result_t.WASMER_OK →
      (wasmer_instantiate wasm_bytes import_object hostAllocOk err).2.2 = err) ∧
     ((wasmer_instantiate wasm_bytes import_object hostAllocOk err).1 =
        wasmer_result_t.WASMER_ERROR →
      ((wasmer_instantiate wasm_bytes import_object hostAllocOk err).2.2).isSome = true ∧
      (wasmer_instantiate wasm_bytes import_object hostAllocOk err).2.2 =
        (wasmer_instantiate wasm_bytes import_object hostAllocOk err').2.2)) ∧
    (((wasmer_instance_call inst name params err).1 = wasmer_result_t.WASMER_OK →
      (wasmer_instance_call inst name params err).2.2 = err) ∧
     ((wasmer_instance_call inst name params err).1 = wasmer_result_t.WASMER_ERROR →
      ((wasmer_instance_call inst name params err).2.2).isSome = true ∧
      (wasmer_instance_call inst name params err).2.2 =
        (wasmer_instance_call inst name params err').2.2)) ∧
    (((wasmer_memory_grow memory delta hostAllocOk err).1 = wasmer_result_t.WASMER_OK →
      (wasmer_memory_grow memory delta hostAllocOk err).2.2 = err) ∧
     ((wasmer_memory_grow memory delta hostAllocOk err).1 = wasmer_result_t.WASMER_ERROR →
      ((wasmer_memory_grow memory delta hostAllocOk err).2.2).isSome = true ∧
      (wasmer_memory_grow memory delta hostAllocOk err).2.2 =
        (wasmer_memory_grow memory delta hostAllocOk err').2.2)) ∧
    (((wasmer_table_grow table delta hostAllocOk err).1 = wasmer_result_t.WASMER_OK →
      (wasmer_table_grow table delta hostAllocOk err).2.2 = err) ∧
     ((wasmer_table_grow table delta hostAllocOk err).1 = wasmer_result_t.WASMER_ERROR →
      ((wasmer_table_grow table delta hostAllocOk err).2.2).isSome = true ∧
      (wasmer_table_grow table delta hostAllocOk err).2.2 =
        (wasmer_table_grow table delta hostAllocOk err').2.2)) ∧
    (((wasmer_memory_new limits hostAllocOk err).1 = wasmer_result_t.WASMER_OK →
      (wasmer_memory_new limits hostAllocOk err).2.2 = err) ∧
     ((wasmer_memory_new limits hostAllocOk err).1 = wasmer_result_t.WASMER_ERROR →
      ((wasmer_memory_new limits hostAllocOk err).2.2).isSome = true ∧
      (wasmer_memory_new limits hostAllocOk err).2.2 =
        (wasmer_memory_new limits hostAllocOk err').2.2)) ∧
    (((wasmer_table_new limits hostAllocOk err).1 = wasmer_result_t.WASMER_OK →
      (wasmer_table_new limits hostAllocOk err).2.2 = err) ∧
     ((wasmer_table_new limits hostAllocOk err).1 = wasmer_result_t.WASMER_ERROR →
      ((wasmer_table_new limits hostAllocOk err).2.2).isSome = true ∧
      (wasmer_table_new limits hostAllocOk err).2.2 =
        (wasmer_table_new limits hostAllocOk err').2.2)) ∧
    (((global.desc.mutable_ = true ∧ value.tag = global.desc.kind) →
      (wasmer_global_set global value err).2 = err) ∧
     (¬(global.desc.mutable_ = true ∧ value.tag = global.desc.kind) →
      ((wasmer_global_set global value err).2).isSome = true ∧
      (wasmer_global_set global value err).2 =
        (wasmer_global_set global value err').2)) :=
  ⟨instantiate_channel_frame wasm_bytes import_object hostAllocOk err err',
   call_channel_frame inst name params err err',
   memory_grow_channel_frame memory delta hostAllocOk err err',
   table_grow_channel_frame table delta hostAllocOk err err',
   memory_new_channel_frame limits hostAllocOk err err',
   table_new_channel_frame limits hostAllocOk err err',
   global_set_channel_frame global value err err'⟩

/-- C8 witness: a successful grow of the demo Memory leaves a previously
recorded message in place, and a failing grow records a message. -/
theorem error_channel_write_discipline_witness :
    (wasmer_memory_grow demoMemory 1 true (some runtimeTrapMsg)).2.2 =
      some runtimeTrapMsg ∧
    ((wasmer_memory_grow demoMemory 5 true (some runtimeTrapMsg)).2.2).isSome = true := by
  have h1 := error_channel_write_discipline wasm_preamble wasmer_import_object_new
    demoInstance "add" demoParams demoMemory demoTable 1 demoLimits demoGlobal
    { tag := .WASM_I32, value := 9 } true (some runtimeTrapMsg) none
  have h2 := error_channel_write_discipline wasm_preamble wasmer_import_object_new
    demoInstance "add" demoParams demoMemory demoTable 5 demoLimits demoGlobal
    { tag := .WASM_I32, value := 9 } true (some runtimeTrapMsg) none
  exact ⟨h1.2.2.1.1 rfl, (h2.2.2.1.2 rfl).1⟩

/-- C9: the header contradicts its own documentation here: the declaration
of wasmer_imports_set_import_func (wasmer.hh line 89) has return type void,
while its doc comment (wasmer.hh lines 86-88) documents a WASMER_OK /
WASMER_ERROR result code, so registration cannot report its outcome via a
returned result code; wasmer_instance_call, by contrast, is declared with
the result-code return type its doc comment documents. -/
theorem imports_set_import_func_declared_void :
    declared_ret "wasmer_imports_set_import_func" = some CRetType.void ∧
    doc_says_result_code "wasmer_imports_set_import_func" = some true ∧
    declared_ret "wasmer_imports_set_import_func" ≠ some CRetType.wasmer_result ∧
    declared_ret "wasmer_instance_call" = some CRetType.wasmer_result := by
  refine ⟨rfl, rfl, ?_, rfl⟩
  decide

/-- C10: the creation interface always carries a concrete finite maximum:
every wasmer_limits_t max is a uint32_t value below 2 ^ 32, a Memory or
Table created from given limits carries exactly that max, and a successful
grow keeps the observable size within the always-present max. -/
theorem limits_max_always_finite (limits : wasmer_limits_t) (hostAllocOk : Bool)
    (err : ErrorChannel) (memory : wasmer_memory_t) (delta : Nat) :
    limits.max < 2 ^ 32 ∧
    (∀ m, (wasmer_memory_new limits hostAllocOk err).2.1 = some m →
      m.limits.max = limits.max) ∧
    (∀ t, (wasmer_table_new limits hostAllocOk err).2.1 = some t →
      t.limits.max = limits.max) ∧
    ((wasmer_memory_grow memory delta hostAllocOk err).1 = wasmer_result_t.WASMER_OK →
      wasmer_memory_length (wasmer_memory_grow memory delta hostAllocOk err).2.1 ≤
        memory.limits.max) := by
  refine ⟨limits.max_isUInt32, ?_, ?_, ?_⟩
  · intro m hm
    unfold wasmer_memory_new at hm
    split_ifs at hm
    all_goals simp at hm
    rw [← hm]
  · intro t ht
    unfold wasmer_table_new at ht
    split_ifs at ht
    all_goals simp at ht
    rw [← ht]
  · intro hok
    unfold wasmer_memory_length
    unfold wasmer_memory_grow at hok ⊢
    split_ifs at hok ⊢ with h1 h2
    all_goals simp_all

/-- C10 witness: the demo limits carry the finite max 2 and a Memory created
from them carries that max. -/
theorem limits_max_always_finite_witness :
    demoLimits.max < 2 ^ 32 ∧
    ({ limits := demoLimits, pages := 1 } : wasmer_memory_t).limits.max =
      demoLimits.max :=
  ⟨(limits_max_always_finite demoLimits true none demoMemory 1).1,
   (limits_max_always_finite demoLimits true none demoMemory 1).2.1
     { limits := demoLimits, pages := 1 } rfl⟩
